import Mathlib

/-!
Shallow embedding of the MSTS monthly points ("rewards ledger") subsystem.

Sources embedded here:
- `src/supabase/migrations/20260208055428_add_monthly_points_tracking.sql`
  (table `monthly_employee_points`, function `upsert_monthly_points`,
  trigger function `update_monthly_points_on_report_change`, backfill DO block);
- `src/unnamed/part_009` (trigger functions `handle_resolver_insert`,
  `handle_resolver_delete` on `report_resolvers`);
- `src/unnamed/part_011` (table `report_resolvers`, function
  `calculate_resolver_points`);
- `src/src/components/employee/Leaderboard.tsx` (`loadLeaderboard`);
- `src/src/components/admin/ReportDetail.tsx` (`handleUpdateStatus`).

Modelling conventions: uuids become `Nat`; SQL `integer` becomes `Int`;
timestamps are reduced to the (year, month) pair that `EXTRACT(YEAR/MONTH ...)`
produces, since only those reach the ledger; `id`/`created_at`/`updated_at`
bookkeeping columns that no claim mentions are dropped.  A plpgsql statement
that raises (a NOT NULL violation, a UNIQUE violation) is modelled by `none`
in an `Option` result.
-/

namespace MSTS

abbrev EmployeeId := Nat

abbrev ReportId := Nat

/-- SQL `GREATEST(a, b)` on integers. -/
def greatest (a b : Int) : Int := if a ≤ b then b else a

/-- one row of `monthly_employee_points` (migration 20260208055428, lines 34-47).
`total_points` is the column `GENERATED ALWAYS AS (reporter_points + resolver_points) STORED`:
it is physically stored and recomputed by the engine on every row write. -/
structure LedgerEntry where
  reporter_points : Int
  resolver_points : Int
  total_points : Int
  report_count : Int
  resolved_count : Int
deriving DecidableEq, Repr

/-- ledger key: the UNIQUE(employee_id, year, month) triple. -/
abbrev LedgerKey := EmployeeId × Int × Int

/-- the `monthly_employee_points` table, as a partial map from its unique key. -/
abbrev Ledger := LedgerKey → Option LedgerEntry

def emptyLedger : Ledger := fun _ => none

/-- the four delta parameters of `upsert_monthly_points`. -/
structure Delta where
  reporter_points_delta : Int
  resolver_points_delta : Int
  report_count_delta : Int
  resolved_count_delta : Int
deriving DecidableEq, Repr

/-- the INSERT branch of `upsert_monthly_points` (lines 89-100): a fresh row
holding `GREATEST(0, delta)` in each field, with the generated `total_points`
column computed from the two stored addends. -/
def insertRow (d : Delta) : LedgerEntry :=
  { reporter_points := greatest 0 d.reporter_points_delta
    resolver_points := greatest 0 d.resolver_points_delta
    total_points := greatest 0 d.reporter_points_delta + greatest 0 d.resolver_points_delta
    report_count := greatest 0 d.report_count_delta
    resolved_count := greatest 0 d.resolved_count_delta }

/-- the ON CONFLICT DO UPDATE branch of `upsert_monthly_points` (lines 101-107):
each field becomes `GREATEST(0, old + delta)`; `total_points` is regenerated. -/
def updateRow (e : LedgerEntry) (d : Delta) : LedgerEntry :=
  { reporter_points := greatest 0 (e.reporter_points + d.reporter_points_delta)
    resolver_points := greatest 0 (e.resolver_points + d.resolver_points_delta)
    total_points := greatest 0 (e.reporter_points + d.reporter_points_delta)
      + greatest 0 (e.resolver_points + d.resolver_points_delta)
    report_count := greatest 0 (e.report_count + d.report_count_delta)
    resolved_count := greatest 0 (e.resolved_count + d.resolved_count_delta) }

/-- `upsert_monthly_points` (migration 20260208055428, lines 75-109):
INSERT ... ON CONFLICT (employee_id, year, month) DO UPDATE, clamping every
field at zero with GREATEST. -/
def upsert_monthly_points (L : Ledger) (k : LedgerKey) (d : Delta) : Ledger :=
  fun k' =>
    if k' = k then
      some (match L k with
        | none => insertRow d
        | some e => updateRow e d)
    else L k'

/-- an all-zero ledger row. -/
def zeroEntry : LedgerEntry :=
  { reporter_points := 0, resolver_points := 0, total_points := 0
    report_count := 0, resolved_count := 0 }

/-- read the row for a key, defaulting to the all-zero row. -/
def getEntryOrZero (L : Ledger) (k : LedgerKey) : LedgerEntry := (L k).getD zeroEntry

/-- apply a list of (key, delta) adjustments left to right. -/
def applyDeltas (L : Ledger) (ds : List (LedgerKey × Delta)) : Ledger :=
  ds.foldl (fun acc kd => upsert_monthly_points acc kd.1 kd.2) L

/-- all four stored fields of a row are nonnegative. -/
def EntryNonneg (e : LedgerEntry) : Prop :=
  0 ≤ e.reporter_points ∧ 0 ≤ e.resolver_points ∧
    0 ≤ e.report_count ∧ 0 ≤ e.resolved_count

/-- every row present in the ledger satisfies `P`. -/
def LedgerAll (P : LedgerEntry → Prop) (L : Ledger) : Prop :=
  ∀ k e, L k = some e → P e

/-- `P` holds of every row either branch of `upsert_monthly_points` can write. -/
def RowClosed (P : LedgerEntry → Prop) : Prop :=
  (∀ d, P (insertRow d)) ∧ (∀ e d, P (updateRow e d))

/-- one row of `safety_reports`, restricted to the columns the ledger reads:
`employee_id` (the author), the (year, month) that `EXTRACT` pulls out of the
immutable `created_at`, the admin-set `points_awarded` (COALESCEd to 0 at every
use, so modelled as a plain `Int`), and the legacy `resolved_by_id` column
(part_007; part_011 replaces it with the `report_resolvers` table and nothing
in the application writes it any more). -/
structure ReportRow where
  id : ReportId
  employee_id : EmployeeId
  year : Int
  month : Int
  points_awarded : Int
  resolved_by_id : Option EmployeeId
deriving DecidableEq, Repr

/-- one row of `report_resolvers` (part_011, lines 1174-1181):
UNIQUE(report_id, resolver_id); `points_awarded` is the frozen bonus written
by the BEFORE INSERT trigger. -/
structure ResolverRow where
  report_id : ReportId
  resolver_id : EmployeeId
  points_awarded : Int
deriving DecidableEq, Repr

/-- SELECT ... FROM safety_reports WHERE id = rid. -/
def findReport (tbl : List ReportRow) (rid : ReportId) : Option ReportRow :=
  tbl.find? (fun r => r.id == rid)

/-- `calculate_resolver_points` (part_011, lines 1216-1228): 1 point for
resolving one's own report, 2 for resolving someone else's. -/
def calculate_resolver_points (p_resolver_id p_report_creator_id : EmployeeId) : Int :=
  if p_resolver_id = p_report_creator_id then 1 else 2

/-- `handle_resolver_insert` (part_009, lines 12-46), the BEFORE INSERT trigger
on `report_resolvers`: look the parent report up, compute the bonus from the
report's author, freeze it on the new row (`NEW.points_awarded := resolver_bonus`),
and credit the resolver's ledger bucket for the report's creation month.
When the parent report does not exist the SELECT INTO leaves year/month NULL
and the `upsert_monthly_points` call violates the NOT NULL constraint on
`monthly_employee_points.year`: modelled as `none`. -/
def handle_resolver_insert (reports : List ReportRow) (new : ResolverRow) (L : Ledger) :
    Option (ResolverRow × Ledger) :=
  match findReport reports new.report_id with
  | some sr =>
      some ({ new with points_awarded := calculate_resolver_points new.resolver_id sr.employee_id },
        upsert_monthly_points L (new.resolver_id, sr.year, sr.month)
          ⟨0, calculate_resolver_points new.resolver_id sr.employee_id, 0, 1⟩)
  | none => none

/-- `handle_resolver_delete` (part_009, lines 49-78), the AFTER DELETE trigger
on `report_resolvers`: look the parent report up for its creation year/month,
then retract the frozen `OLD.points_awarded` and one resolved count from the
resolver's bucket.  When the report row is gone (the FK cascade case) the
lookup finds nothing, year/month stay NULL, and the upsert violates the
NOT NULL constraint: modelled as `none`. -/
def handle_resolver_delete (reports : List ReportRow) (old : ResolverRow) (L : Ledger) :
    Option Ledger :=
  match findReport reports old.report_id with
  | some sr =>
      some (upsert_monthly_points L (old.resolver_id, sr.year, sr.month)
        ⟨0, -old.points_awarded, 0, -1⟩)
  | none => none

/-- the TG_OP = 'INSERT' branch of `update_monthly_points_on_report_change`
(migration 20260208055428, lines 125-141): credit the author with
`COALESCE(points_awarded, 0)` reporter points and one report. -/
def report_insert_monthly (L : Ledger) (new : ReportRow) : Ledger :=
  upsert_monthly_points L (new.employee_id, new.year, new.month)
    ⟨new.points_awarded, 0, 1, 0⟩

/-- the resolver-change part of the TG_OP = 'UPDATE' branch of
`update_monthly_points_on_report_change` (lines 161-222), as the ordered list
of (key, delta) calls it issues.  First block (lines 166-203): when a new
resolver is assigned, credit the new resolver, then, if there was an old one,
retract the old resolver's re-derived bonus.  Second block (lines 206-222):
when the resolver is removed outright, retract the re-derived bonus.  All
buckets use the report's creation year/month (`NEW.created_at`). -/
def resolver_change_deltas (old new : ReportRow) : List (LedgerKey × Delta) :=
  let ry := new.year
  let rm := new.month
  let firstBlock :=
    match new.resolved_by_id with
    | some nr =>
        if old.resolved_by_id = none ∨ old.resolved_by_id ≠ some nr then
          ((nr, ry, rm),
            (⟨0, if nr = new.employee_id then 1 else 2, 0, 1⟩ : Delta)) ::
          (match old.resolved_by_id with
           | some origr =>
               [((origr, ry, rm),
                 ⟨0, -(if origr = old.employee_id then 1 else 2), 0, -1⟩)]
           | none => [])
        else []
    | none => []
  let secondBlock :=
    match old.resolved_by_id, new.resolved_by_id with
    | some origr, none =>
        [((origr, ry, rm),
          ⟨0, -(if origr = old.employee_id then 1 else 2), 0, -1⟩)]
    | _, _ => []
  firstBlock ++ secondBlock

/-- the full TG_OP = 'UPDATE' branch (lines 144-225): the points-edit delta
(only when `COALESCE(old, 0) != COALESCE(new, 0)`) followed by the
resolver-change deltas. -/
def report_update_deltas (old new : ReportRow) : List (LedgerKey × Delta) :=
  (if old.points_awarded ≠ new.points_awarded then
    [((new.employee_id, new.year, new.month),
      (⟨new.points_awarded - old.points_awarded, 0, 0, 0⟩ : Delta))]
   else []) ++ resolver_change_deltas old new

/-- the TG_OP = 'DELETE' branch (lines 228-263): retract the author's points
and report count, and, for the legacy `resolved_by_id` column, the re-derived
resolver bonus, all in the report's creation month (`OLD.created_at`). -/
def report_delete_monthly (L : Ledger) (old : ReportRow) : Ledger :=
  match old.resolved_by_id with
  | some rb =>
      upsert_monthly_points
        (upsert_monthly_points L (old.employee_id, old.year, old.month)
          ⟨-old.points_awarded, 0, -1, 0⟩)
        (rb, old.year, old.month)
        ⟨0, -(if rb = old.employee_id then 1 else 2), 0, -1⟩
  | none =>
      upsert_monthly_points L (old.employee_id, old.year, old.month)
        ⟨-old.points_awarded, 0, -1, 0⟩

/-- the database state the triggers act on. -/
structure DBState where
  reports : List ReportRow
  report_resolvers : List ResolverRow
  ledger : Ledger

/-- fire `handle_resolver_delete` for each cascade-deleted `report_resolvers`
row in turn; any raised error aborts the whole statement. -/
def cascadeResolverDeletes (reports : List ReportRow) (children : List ResolverRow)
    (L : Ledger) : Option Ledger :=
  match children with
  | [] => some L
  | c :: cs =>
      match handle_resolver_delete reports c L with
      | some L' => cascadeResolverDeletes reports cs L'
      | none => none

/-- DELETE FROM safety_reports WHERE id = rid, with its trigger cascade:
the row is removed, the AFTER DELETE trigger `update_monthly_points_on_report_change`
retracts the author's points using the OLD row, and the ON DELETE CASCADE
foreign key then deletes the report's `report_resolvers` rows, each firing
`handle_resolver_delete` against a `safety_reports` table that no longer
contains the report. -/
def deleteReportCascade (db : DBState) (rid : ReportId) : Option DBState :=
  match findReport db.reports rid with
  | none => some db
  | some old =>
      match cascadeResolverDeletes (db.reports.filter (fun r => !(r.id == rid)))
          (db.report_resolvers.filter (fun x => x.report_id == rid))
          (report_delete_monthly db.ledger old) with
      | some L2 =>
          some { reports := db.reports.filter (fun r => !(r.id == rid))
                 report_resolvers := db.report_resolvers.filter (fun x => !(x.report_id == rid))
                 ledger := L2 }
      | none => none

/-- the mutation events the report-lifecycle collaborator emits at the ledger's
boundary (spec §6): report creation, point edit, report deletion, and resolver
assignment add/remove through the `report_resolvers` table. -/
inductive Event where
  | createReport (rid : ReportId) (author : EmployeeId) (year month points : Int)
  | editPoints (rid : ReportId) (newPoints : Int)
  | deleteReport (rid : ReportId)
  | addResolver (rid : ReportId) (resolver : EmployeeId)
  | removeResolver (rid : ReportId) (resolver : EmployeeId)
deriving DecidableEq, Repr

/-- apply one event to the database, firing the triggers exactly as the SQL
does.  `none` models a raised error aborting the statement. -/
def step (db : DBState) : Event → Option DBState
  | .createReport rid a y m p =>
      let row : ReportRow := ⟨rid, a, y, m, p, none⟩
      some { db with reports := db.reports ++ [row]
                     ledger := report_insert_monthly db.ledger row }
  | .editPoints rid p =>
      match findReport db.reports rid with
      | none => some db
      | some old =>
          let new := { old with points_awarded := p }
          some { db with
            reports := db.reports.map (fun r => if r.id == rid then new else r)
            ledger := applyDeltas db.ledger (report_update_deltas old new) }
  | .deleteReport rid => deleteReportCascade db rid
  | .addResolver rid r =>
      if db.report_resolvers.any (fun x => x.report_id == rid && x.resolver_id == r) then
        none
      else
        match handle_resolver_insert db.reports ⟨rid, r, 0⟩ db.ledger with
        | some (row, L) =>
            some { db with report_resolvers := db.report_resolvers ++ [row], ledger := L }
        | none => none
  | .removeResolver rid r =>
      match db.report_resolvers.find? (fun x => x.report_id == rid && x.resolver_id == r) with
      | none => some db
      | some row =>
          match handle_resolver_delete db.reports row db.ledger with
          | some L =>
              some { db with
                report_resolvers :=
                  db.report_resolvers.filter
                    (fun x => !(x.report_id == rid && x.resolver_id == r))
                ledger := L }
          | none => none

def emptyDB : DBState := { reports := [], report_resolvers := [], ledger := emptyLedger }

/-- run a history of events from the empty database. -/
def runHistory (evs : List Event) : Option DBState :=
  evs.foldl (fun acc ev => acc.bind (fun db => step db ev)) (some emptyDB)

/-- the backfill DO block (migration 20260208055428, lines 277-325): TRUNCATE
`monthly_employee_points`, then walk `safety_reports` in `created_at` order
(list order here), crediting each author and, when the legacy `resolved_by_id`
column is set, the re-derived resolver bonus.  The `report_resolvers` table is
never consulted. -/
def backfill_monthly_points (reports : List ReportRow) : Ledger :=
  reports.foldl
    (fun L rr =>
      let L1 := upsert_monthly_points L (rr.employee_id, rr.year, rr.month)
        ⟨rr.points_awarded, 0, 1, 0⟩
      match rr.resolved_by_id with
      | some rb =>
          upsert_monthly_points L1 (rb, rr.year, rr.month)
            ⟨0, if rb = rr.employee_id then 1 else 2, 0, 1⟩
      | none => L1)
    emptyLedger

/-- the ledger effect of changing a report's resolver from `A` to `B` through
the resolver-change branch of `update_monthly_points_on_report_change`, with
author `c` and creation month (y, m) unchanged. -/
def replaceResolver (rid : ReportId) (c : EmployeeId) (y m p : Int)
    (A B : EmployeeId) (L : Ledger) : Ledger :=
  applyDeltas L (resolver_change_deltas ⟨rid, c, y, m, p, some A⟩ ⟨rid, c, y, m, p, some B⟩)

/-- one `profiles` row as selected by `loadLeaderboard`
(Leaderboard.tsx, lines 30-42): id and the profile's lifetime `points`;
the query orders rows by `points` descending, which is the order of the
input list here. -/
structure ProfileRow where
  id : EmployeeId
  points : Int
deriving DecidableEq, Repr

/-- one entry of the leaderboard after the per-profile report-count query
(Leaderboard.tsx, lines 56-70). -/
structure LeaderboardItem where
  id : EmployeeId
  points : Int
  report_count : Nat
deriving DecidableEq, Repr

/-- the `count || 0` result of the per-profile `safety_reports` count query. -/
def countFor (counts : List (EmployeeId × Nat)) (i : EmployeeId) : Nat :=
  ((counts.find? (fun c => c.1 == i)).map (fun c => c.2)).getD 0

/-- the comparator of `leaderboardData.sort` (Leaderboard.tsx, lines 72-77):
`a` precedes `b` when `a.report_count > b.report_count`, and on equal counts
when `a.points >= b.points`.  There is no further tiebreak. -/
def leaderboardRel (a b : LeaderboardItem) : Prop :=
  b.report_count < a.report_count ∨
    (a.report_count = b.report_count ∧ b.points ≤ a.points)

instance : DecidableRel leaderboardRel := fun a b => by
  unfold leaderboardRel; infer_instance

instance : IsTotal LeaderboardItem leaderboardRel :=
  ⟨by intro a b; unfold leaderboardRel; omega⟩

instance : IsTrans LeaderboardItem leaderboardRel :=
  ⟨by intro a b c hab hbc; unfold leaderboardRel at *; omega⟩

/-- the rows `loadLeaderboard` builds before sorting (lines 56-70). -/
def loadLeaderboardRows (profiles : List ProfileRow) (counts : List (EmployeeId × Nat)) :
    List LeaderboardItem :=
  profiles.map (fun p => { id := p.id, points := p.points, report_count := countFor counts p.id })

/-- `loadLeaderboard`'s final ordering (lines 72-81): the comparison sort of
the rows under the code's comparator. -/
def loadLeaderboardSorted (profiles : List ProfileRow) (counts : List (EmployeeId × Nat)) :
    List LeaderboardItem :=
  List.insertionSort leaderboardRel (loadLeaderboardRows profiles counts)

/-- the ordering claimed in the spec for `get_period_ranking`: total points
descending, then report count descending, then ascending employee id. -/
def specRankingRel (a b : LeaderboardItem) : Prop :=
  b.points < a.points ∨
    (a.points = b.points ∧
      (b.report_count < a.report_count ∨
        (a.report_count = b.report_count ∧ a.id ≤ b.id)))

instance : DecidableRel specRankingRel := fun a b => by
  unfold specRankingRel; infer_instance

/-! ## Helper lemmas -/

lemma greatest_zero_nonneg (x : Int) : 0 ≤ greatest 0 x := by
  unfold greatest; split <;> omega

lemma greatest_zero_of_nonneg {x : Int} (h : 0 ≤ x) : greatest 0 x = x := by
  unfold greatest; split <;> omega

lemma greatest_zero_of_nonpos {x : Int} (h : x ≤ 0) : greatest 0 x = 0 := by
  unfold greatest; split <;> omega

lemma insertRow_eq_updateRow_zero (d : Delta) : insertRow d = updateRow zeroEntry d := by
  simp [insertRow, updateRow, zeroEntry]

lemma upsert_apply_self (L : Ledger) (k : LedgerKey) (d : Delta) :
    upsert_monthly_points L k d k = some (updateRow (getEntryOrZero L k) d) := by
  unfold upsert_monthly_points getEntryOrZero
  cases h : L k with
  | none => simp [h, insertRow_eq_updateRow_zero]
  | some e => simp [h]

lemma upsert_apply_ne (L : Ledger) (k k' : LedgerKey) (d : Delta) (h : k' ≠ k) :
    upsert_monthly_points L k d k' = L k' := by
  unfold upsert_monthly_points
  simp [h]

lemma getEntryOrZero_upsert_ne (L : Ledger) (k k' : LedgerKey) (d : Delta) (h : k' ≠ k) :
    getEntryOrZero (upsert_monthly_points L k d) k' = getEntryOrZero L k' := by
  unfold getEntryOrZero
  rw [upsert_apply_ne L k k' d h]

lemma rowClosed_nonneg : RowClosed EntryNonneg :=
  ⟨fun _ => ⟨greatest_zero_nonneg _, greatest_zero_nonneg _, greatest_zero_nonneg _,
      greatest_zero_nonneg _⟩,
   fun _ _ => ⟨greatest_zero_nonneg _, greatest_zero_nonneg _, greatest_zero_nonneg _,
      greatest_zero_nonneg _⟩⟩

lemma rowClosed_totalSum :
    RowClosed (fun e => e.total_points = e.reporter_points + e.resolver_points) :=
  ⟨fun _ => rfl, fun _ _ => rfl⟩

lemma emptyLedger_all (P : LedgerEntry → Prop) : LedgerAll P emptyLedger := by
  intro k e he
  simp [emptyLedger] at he

lemma upsert_all {P : LedgerEntry → Prop} (hP : RowClosed P) {L : Ledger}
    (hL : LedgerAll P L) (k : LedgerKey) (d : Delta) :
    LedgerAll P (upsert_monthly_points L k d) := by
  intro k' e' he'
  unfold upsert_monthly_points at he'
  by_cases hk : k' = k
  · simp only [hk, if_pos rfl] at he'
    cases h : L k with
    | none => rw [h] at he'; cases he'; exact hP.1 d
    | some e => rw [h] at he'; cases he'; exact hP.2 e d
  · simp only [if_neg hk] at he'
    exact hL k' e' he'

lemma applyDeltas_all {P : LedgerEntry → Prop} (hP : RowClosed P) {L : Ledger}
    (hL : LedgerAll P L) (ds : List (LedgerKey × Delta)) :
    LedgerAll P (applyDeltas L ds) := by
  induction ds generalizing L with
  | nil => exact hL
  | cons kd tl ih => exact ih (upsert_all hP hL kd.1 kd.2)

lemma handle_resolver_insert_all {P : LedgerEntry → Prop} (hP : RowClosed P)
    {reports : List ReportRow} {new : ResolverRow} {L L' : Ledger} {row : ResolverRow}
    (h : handle_resolver_insert reports new L = some (row, L'))
    (hL : LedgerAll P L) : LedgerAll P L' := by
  unfold handle_resolver_insert at h
  cases hf : findReport reports new.report_id with
  | none => rw [hf] at h; cases h
  | some sr =>
      rw [hf] at h
      simp only [Option.some.injEq, Prod.mk.injEq] at h
      rw [← h.2]
      exact upsert_all hP hL _ _

lemma handle_resolver_delete_all {P : LedgerEntry → Prop} (hP : RowClosed P)
    {reports : List ReportRow} {old : ResolverRow} {L L' : Ledger}
    (h : handle_resolver_delete reports old L = some L')
    (hL : LedgerAll P L) : LedgerAll P L' := by
  unfold handle_resolver_delete at h
  cases hf : findReport reports old.report_id with
  | none => rw [hf] at h; cases h
  | some sr =>
      rw [hf] at h
      simp only [Option.some.injEq] at h
      rw [← h]
      exact upsert_all hP hL _ _

lemma cascadeResolverDeletes_all {P : LedgerEntry → Prop} (hP : RowClosed P)
    {reports : List ReportRow} : ∀ {children : List ResolverRow} {L L' : Ledger},
    cascadeResolverDeletes reports children L = some L' →
    LedgerAll P L → LedgerAll P L' := by
  intro children
  induction children with
  | nil =>
      intro L L' h hL
      unfold cascadeResolverDeletes at h
      simp only [Option.some.injEq] at h
      rw [← h]; exact hL
  | cons c cs ih =>
      intro L L' h hL
      unfold cascadeResolverDeletes at h
      cases hd : handle_resolver_delete reports c L with
      | none => rw [hd] at h; cases h
      | some L1 =>
          rw [hd] at h
          exact ih h (handle_resolver_delete_all hP hd hL)

lemma report_delete_monthly_all {P : LedgerEntry → Prop} (hP : RowClosed P)
    {L : Ledger} (hL : LedgerAll P L) (old : ReportRow) :
    LedgerAll P (report_delete_monthly L old) := by
  unfold report_delete_monthly
  cases old.resolved_by_id with
  | none => exact upsert_all hP hL _ _
  | some rb => exact upsert_all hP (upsert_all hP hL _ _) _ _

lemma step_all {P : LedgerEntry → Prop} (hP : RowClosed P)
    {db db' : DBState} {ev : Event} (h : step db ev = some db')
    (hL : LedgerAll P db.ledger) : LedgerAll P db'.ledger := by
  cases ev with
  | createReport rid a y m p =>
      simp only [step] at h
      cases h
      exact upsert_all hP hL _ _
  | editPoints rid p =>
      simp only [step] at h
      cases hf : findReport db.reports rid with
      | none => rw [hf] at h; cases h; exact hL
      | some old =>
          rw [hf] at h
          cases h
          exact applyDeltas_all hP hL _
  | deleteReport rid =>
      simp only [step] at h
      unfold deleteReportCascade at h
      split at h
      · cases h; exact hL
      · next old hf =>
          split at h
          · next L2 hc =>
              cases h
              exact cascadeResolverDeletes_all hP hc (report_delete_monthly_all hP hL old)
          · cases h
  | addResolver rid r =>
      simp only [step] at h
      split at h
      · cases h
      · split at h
        · next row L hins =>
            cases h
            exact handle_resolver_insert_all hP hins hL
        · cases h
  | removeResolver rid r =>
      simp only [step] at h
      split at h
      · cases h; exact hL
      · next row hf =>
          split at h
          · next L hd =>
              cases h
              exact handle_resolver_delete_all hP hd hL
          · cases h

lemma runHistory_fold_all {P : LedgerEntry → Prop} (hP : RowClosed P) :
    ∀ (evs : List Event) (acc : Option DBState) (db' : DBState),
    evs.foldl (fun a ev => a.bind (fun db => step db ev)) acc = some db' →
    (∀ db, acc = some db → LedgerAll P db.ledger) → LedgerAll P db'.ledger := by
  intro evs
  induction evs with
  | nil =>
      intro acc db' h hacc
      exact hacc db' h
  | cons ev tl ih =>
      intro acc db' h hacc
      simp only [List.foldl_cons] at h
      refine ih _ _ h ?_
      intro db hdb
      cases hacc' : acc with
      | none => rw [hacc'] at hdb; simp at hdb
      | some db0 =>
          rw [hacc'] at hdb
          exact step_all hP hdb (hacc db0 hacc')

lemma runHistory_all {P : LedgerEntry → Prop} (hP : RowClosed P)
    {evs : List Event} {db : DBState} (h : runHistory evs = some db) :
    LedgerAll P db.ledger := by
  refine runHistory_fold_all hP evs (some emptyDB) db h ?_
  intro db0 hdb0
  cases hdb0
  exact emptyLedger_all P

lemma calculate_resolver_points_pos (r a : EmployeeId) :
    1 ≤ calculate_resolver_points r a := by
  unfold calculate_resolver_points; split <;> omega

lemma resolver_change_deltas_replace (old new : ReportRow) (A B : EmployeeId)
    (hA : old.resolved_by_id = some A) (hB : new.resolved_by_id = some B) (hAB : A ≠ B) :
    resolver_change_deltas old new =
      [((B, new.year, new.month), ⟨0, if B = new.employee_id then 1 else 2, 0, 1⟩),
       ((A, new.year, new.month), ⟨0, -(if A = old.employee_id then 1 else 2), 0, -1⟩)] := by
  unfold resolver_change_deltas
  rw [hA, hB]
  simp [hAB]

lemma getEntryOrZero_upsert_self (L : Ledger) (k : LedgerKey) (d : Delta) :
    getEntryOrZero (upsert_monthly_points L k d) k = updateRow (getEntryOrZero L k) d := by
  unfold getEntryOrZero upsert_monthly_points
  cases h : L k with
  | none => simp [h, insertRow_eq_updateRow_zero]
  | some e => simp [h]

/-! ## Claims -/

/-- Claim C1 (refuted at a concrete history): for the two-event history
"report 1 created by employee 10 in 2026-03 with 0 points; resolver 20 added
through `report_resolvers`", incremental application credits key (20, 2026, 3)
with resolver_points 2 and resolved_count 1, but the backfill DO block —
which only reads the legacy `safety_reports.resolved_by_id` column and never
consults `report_resolvers` — leaves that touched key absent.  Rebuild is
therefore not equivalent to incremental application for histories containing
resolver add/remove events. -/
theorem rebuild_differs_from_incremental :
    ((runHistory [Event.createReport 1 10 2026 3 0, Event.addResolver 1 20]).map
        (fun db => db.ledger (20, 2026, 3))) = some (some ⟨0, 2, 2, 0, 1⟩) ∧
    ((runHistory [Event.createReport 1 10 2026 3 0, Event.addResolver 1 20]).map
        (fun db => backfill_monthly_points db.reports (20, 2026, 3))) = some none := by
  constructor <;> decide

/-- Claim C2: every stored field of every ledger row stays nonnegative, both
under any raw sequence of (key, delta) adjustments through
`upsert_monthly_points` — which covers a delete replayed before its matching
create, since every event handler writes through this one primitive — and
under any event history run through the triggers. -/
theorem ledger_nonnegativity :
    (∀ (ds : List (LedgerKey × Delta)) (k : LedgerKey) (e : LedgerEntry),
        applyDeltas emptyLedger ds k = some e → EntryNonneg e) ∧
    (∀ (evs : List Event) (k : LedgerKey) (e : LedgerEntry),
        (runHistory evs).map (fun db => db.ledger k) = some (some e) → EntryNonneg e) := by
  constructor
  · intro ds k e h
    exact applyDeltas_all rowClosed_nonneg (emptyLedger_all _) ds k e h
  · intro evs k e h
    cases hr : runHistory evs with
    | none => rw [hr] at h; simp at h
    | some db =>
        rw [hr] at h
        have h' : db.ledger k = some e := by simpa using h
        exact runHistory_all rowClosed_nonneg hr k e h'

/-- witness for C2: a retraction delta replayed before its matching creation
yields the clamped all-zero row, and a created report yields a nonnegative row. -/
theorem ledger_nonnegativity_witness :
    EntryNonneg zeroEntry ∧ EntryNonneg ⟨2, 0, 2, 1, 0⟩ :=
  ⟨ledger_nonnegativity.1 [((1, 2026, 3), ⟨-2, 0, -1, 0⟩)] (1, 2026, 3) zeroEntry (by decide),
   ledger_nonnegativity.2 [Event.createReport 1 10 2026 3 2] (10, 2026, 3) ⟨2, 0, 2, 1, 0⟩
     (by decide)⟩

/-- Claim C3: `upsert_monthly_points` reads the row for the key or creates it
from the all-zero row, adds each delta to its field, clamps every resulting
field at zero, and writes back (the INSERT branch's `GREATEST(0, delta)`
coincides with adjusting the implicit zero row); keys other than the target
are untouched, and the operation always yields a row — in particular it
never errors on a first-touch key. -/
theorem upsert_monthly_points_correct (L : Ledger) (k : LedgerKey) (d : Delta) :
    upsert_monthly_points L k d k = some (updateRow (getEntryOrZero L k) d) ∧
    ∀ k', k' ≠ k → upsert_monthly_points L k d k' = L k' :=
  ⟨upsert_apply_self L k d, fun k' h => upsert_apply_ne L k k' d h⟩

/-- witness for C3 at a first-touch key. -/
theorem upsert_monthly_points_correct_witness :
    upsert_monthly_points emptyLedger (1, 2026, 3) ⟨2, 0, 1, 0⟩ (1, 2026, 3) =
      some (updateRow (getEntryOrZero emptyLedger (1, 2026, 3)) ⟨2, 0, 1, 0⟩) ∧
    upsert_monthly_points emptyLedger (1, 2026, 3) ⟨2, 0, 1, 0⟩ (2, 2026, 3) =
      emptyLedger (2, 2026, 3) :=
  ⟨(upsert_monthly_points_correct emptyLedger (1, 2026, 3) ⟨2, 0, 1, 0⟩).1,
   (upsert_monthly_points_correct emptyLedger (1, 2026, 3) ⟨2, 0, 1, 0⟩).2 (2, 2026, 3)
     (by decide)⟩

/-- Claim C4: the frozen bonus written on a `report_resolvers` row at insert
time is what `handle_resolver_delete` retracts, regardless of who the
report's author is at removal time: the conclusion mentions only the
creation-time author `rep0.employee_id`, while the table at removal time,
`tbl1`, may record any other author. -/
theorem resolver_removal_uses_frozen_bonus
    (tbl0 tbl1 : List ReportRow) (rid : ReportId) (r : EmployeeId)
    (rep0 rep1 : ReportRow) (L0 L1 L0' : Ledger) (row : ResolverRow)
    (h0 : findReport tbl0 rid = some rep0)
    (hins : handle_resolver_insert tbl0 ⟨rid, r, 0⟩ L0 = some (row, L0'))
    (h1 : findReport tbl1 rid = some rep1) :
    row.points_awarded = calculate_resolver_points r rep0.employee_id ∧
    handle_resolver_delete tbl1 row L1 =
      some (upsert_monthly_points L1 (r, rep1.year, rep1.month)
        ⟨0, -(calculate_resolver_points r rep0.employee_id), 0, -1⟩) := by
  unfold handle_resolver_insert at hins
  rw [show findReport tbl0 (⟨rid, r, 0⟩ : ResolverRow).report_id = some rep0 from h0] at hins
  simp only [Option.some.injEq, Prod.mk.injEq] at hins
  obtain ⟨hrow, hL0⟩ := hins
  subst hrow
  refine ⟨rfl, ?_⟩
  unfold handle_resolver_delete
  rw [show findReport tbl1
      ({ report_id := rid, resolver_id := r,
         points_awarded := calculate_resolver_points r rep0.employee_id } : ResolverRow).report_id
      = some rep1 from h1]

/-- witness for C4: report 1 is authored by 10 at assignment time (self-resolve,
frozen bonus 1); by removal time the table records author 99 (which would
re-derive to 2), yet exactly the frozen 1 is retracted. -/
theorem resolver_removal_uses_frozen_bonus_witness :
    (⟨1, 10, 1⟩ : ResolverRow).points_awarded = calculate_resolver_points 10 10 ∧
    handle_resolver_delete [(⟨1, 99, 2026, 3, 0, none⟩ : ReportRow)] (⟨1, 10, 1⟩ : ResolverRow)
        emptyLedger =
      some (upsert_monthly_points emptyLedger (10, 2026, 3)
        ⟨0, -(calculate_resolver_points 10 10), 0, -1⟩) :=
  resolver_removal_uses_frozen_bonus
    [⟨1, 10, 2026, 3, 0, none⟩] [⟨1, 99, 2026, 3, 0, none⟩] 1 10
    ⟨1, 10, 2026, 3, 0, none⟩ ⟨1, 99, 2026, 3, 0, none⟩
    emptyLedger emptyLedger
    (upsert_monthly_points emptyLedger (10, 2026, 3)
      ⟨0, calculate_resolver_points 10 10, 0, 1⟩)
    ⟨1, 10, 1⟩ rfl rfl rfl

/-- Claim C5 (code bug, evaluated at the failing input): the history
"create report 1 (author 10, 2026-03, 2 points); add resolver 20" runs fine,
but deleting the report then fails: the ON DELETE CASCADE removes the
`report_resolvers` row after the report row is gone, `handle_resolver_delete`
finds no report to read the creation month from (third conjunct), and its
upsert with NULL year/month violates the NOT NULL constraint, aborting the
delete.  The creation month is never captured before the cascade. -/
theorem report_delete_cascade_loses_creation_month :
    (runHistory [Event.createReport 1 10 2026 3 2, Event.addResolver 1 20]).isSome = true ∧
    (runHistory [Event.createReport 1 10 2026 3 2, Event.addResolver 1 20,
        Event.deleteReport 1]).isNone = true ∧
    (handle_resolver_delete [] (⟨1, 20, 2⟩ : ResolverRow) emptyLedger).isNone = true := by
  refine ⟨by decide, by decide, by decide⟩

/-- Claim C6 counterexample: replacing the resolver of a report from employee 1
to employee 2 (author 3, creation month 2026-05) does not issue the deltas in
the claimed order "removed for A first, then added for B". -/
theorem resolver_replace_order_counterexample :
    resolver_change_deltas (⟨1, 3, 2026, 5, 2, some 1⟩ : ReportRow)
        (⟨1, 3, 2026, 5, 2, some 2⟩ : ReportRow) ≠
      [((1, 2026, 5), (⟨0, -2, 0, -1⟩ : Delta)), ((2, 2026, 5), (⟨0, 2, 0, 1⟩ : Delta))] := by
  decide

/-- Claim C6 as amended: replacing the resolver from A to B issues two
independent deltas in a fixed order — first the "added" delta for B, then the
"removed" delta for A — both keyed by the report's creation year/month. -/
theorem resolver_replace_add_then_remove (old new : ReportRow) (A B : EmployeeId)
    (hA : old.resolved_by_id = some A) (hB : new.resolved_by_id = some B) (hAB : A ≠ B) :
    resolver_change_deltas old new =
      [((B, new.year, new.month), ⟨0, if B = new.employee_id then 1 else 2, 0, 1⟩),
       ((A, new.year, new.month), ⟨0, -(if A = old.employee_id then 1 else 2), 0, -1⟩)] :=
  resolver_change_deltas_replace old new A B hA hB hAB

/-- witness for the amended C6. -/
theorem resolver_replace_add_then_remove_witness :
    resolver_change_deltas (⟨1, 3, 2026, 5, 2, some 1⟩ : ReportRow)
        (⟨1, 3, 2026, 5, 2, some 2⟩ : ReportRow) =
      [((2, 2026, 5), (⟨0, 2, 0, 1⟩ : Delta)), ((1, 2026, 5), (⟨0, -2, 0, -1⟩ : Delta))] :=
  resolver_replace_add_then_remove _ _ 1 2 rfl rfl (by decide)

/-- Claim C8 counterexample: `total_points` is part of the persisted row shape.
The row written for a first-touch upsert of delta (3, 2, 1, 0) physically
stores `total_points = 5` (the `GENERATED ALWAYS ... STORED` column of
CREATE TABLE line 41): it is recomputed and stored on every write, not
computed on every read. -/
theorem total_points_stored_counterexample :
    upsert_monthly_points emptyLedger (1, 2026, 3) ⟨3, 2, 1, 0⟩ (1, 2026, 3) =
      some ⟨3, 2, 5, 1, 0⟩ := by
  decide

/-- Claim C8 as amended: `total_points` is a stored generated column that the
engine recomputes from its two addends on every row write and that can never
be mutated independently; every reachable row — under raw delta sequences and
under event histories — satisfies
`total_points = reporter_points + resolver_points`. -/
theorem total_points_equals_sum :
    (∀ (ds : List (LedgerKey × Delta)) (k : LedgerKey) (e : LedgerEntry),
        applyDeltas emptyLedger ds k = some e →
        e.total_points = e.reporter_points + e.resolver_points) ∧
    (∀ (evs : List Event) (k : LedgerKey) (e : LedgerEntry),
        (runHistory evs).map (fun db => db.ledger k) = some (some e) →
        e.total_points = e.reporter_points + e.resolver_points) := by
  constructor
  · intro ds k e h
    exact applyDeltas_all rowClosed_totalSum (emptyLedger_all _) ds k e h
  · intro evs k e h
    cases hr : runHistory evs with
    | none => rw [hr] at h; simp at h
    | some db =>
        rw [hr] at h
        have h' : db.ledger k = some e := by simpa using h
        exact runHistory_all rowClosed_totalSum hr k e h'

/-- witness for the amended C8. -/
theorem total_points_equals_sum_witness :
    (⟨3, 2, 5, 1, 0⟩ : LedgerEntry).total_points =
      (⟨3, 2, 5, 1, 0⟩ : LedgerEntry).reporter_points +
        (⟨3, 2, 5, 1, 0⟩ : LedgerEntry).resolver_points ∧
    (⟨2, 0, 2, 1, 0⟩ : LedgerEntry).total_points =
      (⟨2, 0, 2, 1, 0⟩ : LedgerEntry).reporter_points +
        (⟨2, 0, 2, 1, 0⟩ : LedgerEntry).resolver_points :=
  ⟨total_points_equals_sum.1 [((1, 2026, 3), ⟨3, 2, 1, 0⟩)] (1, 2026, 3) ⟨3, 2, 5, 1, 0⟩
     (by decide),
   total_points_equals_sum.2 [Event.createReport 1 10 2026 3 2] (10, 2026, 3) ⟨2, 0, 2, 1, 0⟩
     (by decide)⟩

/-- Claim C9: the point policy gives 1 for a self-resolve and 2 otherwise, and
replacing the resolver of one report from A to B (author `c`, same creation
month) changes the combined resolver_points of the two affected keys by
exactly bonus(B) − bonus(A), leaves their combined resolved_count unchanged,
and touches no other key.  The hypotheses say A's bucket already holds the
credit being retracted (true after the matching "added" event) and B's bucket
is nonnegative (the invariant of claim C2). -/
theorem resolver_bonus_correct (rid : ReportId) (A B c : EmployeeId) (y m p : Int)
    (L : Ledger) (hAB : A ≠ B)
    (hAv : calculate_resolver_points A c ≤ (getEntryOrZero L (A, y, m)).resolver_points)
    (hAc : 1 ≤ (getEntryOrZero L (A, y, m)).resolved_count)
    (hBv : 0 ≤ (getEntryOrZero L (B, y, m)).resolver_points)
    (hBc : 0 ≤ (getEntryOrZero L (B, y, m)).resolved_count) :
    calculate_resolver_points A A = 1 ∧
    calculate_resolver_points A B = 2 ∧
    ((getEntryOrZero (replaceResolver rid c y m p A B L) (B, y, m)).resolver_points +
        (getEntryOrZero (replaceResolver rid c y m p A B L) (A, y, m)).resolver_points) -
      ((getEntryOrZero L (B, y, m)).resolver_points +
        (getEntryOrZero L (A, y, m)).resolver_points) =
      calculate_resolver_points B c - calculate_resolver_points A c ∧
    (getEntryOrZero (replaceResolver rid c y m p A B L) (B, y, m)).resolved_count +
        (getEntryOrZero (replaceResolver rid c y m p A B L) (A, y, m)).resolved_count =
      (getEntryOrZero L (B, y, m)).resolved_count +
        (getEntryOrZero L (A, y, m)).resolved_count ∧
    (∀ k, k ≠ (A, y, m) → k ≠ (B, y, m) → replaceResolver rid c y m p A B L k = L k) := by
  have hkeyAB : ((A, y, m) : LedgerKey) ≠ (B, y, m) :=
    fun hEq => hAB (congrArg Prod.fst hEq)
  have hkeyBA : ((B, y, m) : LedgerKey) ≠ (A, y, m) :=
    fun hEq => hAB (congrArg Prod.fst hEq).symm
  have htrace := resolver_change_deltas_replace
    ⟨rid, c, y, m, p, some A⟩ ⟨rid, c, y, m, p, some B⟩ A B rfl rfl hAB
  have hL' : replaceResolver rid c y m p A B L =
      upsert_monthly_points
        (upsert_monthly_points L (B, y, m) ⟨0, if B = c then 1 else 2, 0, 1⟩)
        (A, y, m) ⟨0, -(if A = c then 1 else 2), 0, -1⟩ := by
    unfold replaceResolver
    rw [htrace]
    rfl
  have hB' : getEntryOrZero (replaceResolver rid c y m p A B L) (B, y, m) =
      updateRow (getEntryOrZero L (B, y, m)) ⟨0, if B = c then 1 else 2, 0, 1⟩ := by
    rw [hL', getEntryOrZero_upsert_ne _ _ _ _ hkeyBA, getEntryOrZero_upsert_self]
  have hA' : getEntryOrZero (replaceResolver rid c y m p A B L) (A, y, m) =
      updateRow (getEntryOrZero L (A, y, m)) ⟨0, -(if A = c then 1 else 2), 0, -1⟩ := by
    rw [hL', getEntryOrZero_upsert_self, getEntryOrZero_upsert_ne _ _ _ _ hkeyAB]
  have hAv' : (if A = c then (1 : Int) else 2) ≤
      (getEntryOrZero L (A, y, m)).resolver_points := hAv
  have hbB : (1 : Int) ≤ (if B = c then (1 : Int) else 2) := by split <;> omega
  have h1 : (0 : Int) ≤
      (getEntryOrZero L (B, y, m)).resolver_points + (if B = c then (1 : Int) else 2) := by
    omega
  have h2 : (0 : Int) ≤
      (getEntryOrZero L (A, y, m)).resolver_points + -(if A = c then (1 : Int) else 2) := by
    omega
  have h3 : (0 : Int) ≤ (getEntryOrZero L (B, y, m)).resolved_count + 1 := by omega
  have h4 : (0 : Int) ≤ (getEntryOrZero L (A, y, m)).resolved_count + -1 := by omega
  refine ⟨by simp [calculate_resolver_points], by simp [calculate_resolver_points, hAB],
    ?_, ?_, ?_⟩
  · rw [hB', hA']
    simp only [updateRow]
    rw [greatest_zero_of_nonneg h1, greatest_zero_of_nonneg h2]
    simp only [calculate_resolver_points]
    ring
  · rw [hB', hA']
    simp only [updateRow]
    rw [greatest_zero_of_nonneg h3, greatest_zero_of_nonneg h4]
    ring
  · intro k hkA hkB
    rw [hL', upsert_apply_ne _ _ _ _ hkA, upsert_apply_ne _ _ _ _ hkB]

/-- the ledger holding exactly the credit of resolver 1 on a report authored
by 3 in 2026-07 (resolver_points 2, resolved_count 1). -/
def c9Start : Ledger := applyDeltas emptyLedger [((1, 2026, 7), ⟨0, 2, 0, 1⟩)]

/-- witness for C9: replacing resolver 1 by resolver 2 on a report authored
by 3 changes combined resolver points by bonus(2,3) − bonus(1,3) = 0 and
preserves the combined resolved count. -/
theorem resolver_bonus_correct_witness :
    calculate_resolver_points 1 1 = 1 ∧
    calculate_resolver_points 1 2 = 2 ∧
    ((getEntryOrZero (replaceResolver 5 3 2026 7 0 1 2 c9Start) (2, 2026, 7)).resolver_points +
        (getEntryOrZero (replaceResolver 5 3 2026 7 0 1 2 c9Start) (1, 2026, 7)).resolver_points) -
      ((getEntryOrZero c9Start (2, 2026, 7)).resolver_points +
        (getEntryOrZero c9Start (1, 2026, 7)).resolver_points) =
      calculate_resolver_points 2 3 - calculate_resolver_points 1 3 ∧
    (getEntryOrZero (replaceResolver 5 3 2026 7 0 1 2 c9Start) (2, 2026, 7)).resolved_count +
        (getEntryOrZero (replaceResolver 5 3 2026 7 0 1 2 c9Start) (1, 2026, 7)).resolved_count =
      (getEntryOrZero c9Start (2, 2026, 7)).resolved_count +
        (getEntryOrZero c9Start (1, 2026, 7)).resolved_count := by
  have h := resolver_bonus_correct 5 1 2 3 2026 7 0 c9Start (by decide) (by decide)
    (by decide) (by decide) (by decide)
  exact ⟨h.1, h.2.1, h.2.2.1, h.2.2.2.1⟩

/-- Claim C7 counterexample: with profiles (id 1, 10 points, 1 report) and
(id 2, 5 points, 2 reports), `loadLeaderboard` returns id 2 first — it sorts
by report_count descending before points — so the result is not ordered by
total points descending as the claim states. -/
theorem leaderboard_order_counterexample :
    loadLeaderboardSorted [⟨1, 10⟩, ⟨2, 5⟩] [(1, 1), (2, 2)] =
      [⟨2, 5, 2⟩, ⟨1, 10, 1⟩] ∧
    ¬ List.Sorted specRankingRel (loadLeaderboardSorted [⟨1, 10⟩, ⟨2, 5⟩] [(1, 1), (2, 2)]) := by
  constructor <;> decide

/-- Claim C7 as amended: `loadLeaderboard` orders entries by report count
descending, then by profile points descending, with no further tiebreak
(ties keep whatever order the store returned), and the output is a
permutation of the built rows. -/
theorem leaderboard_sorted_by_count_then_points
    (profiles : List ProfileRow) (counts : List (EmployeeId × Nat)) :
    List.Sorted leaderboardRel (loadLeaderboardSorted profiles counts) ∧
    List.Perm (loadLeaderboardSorted profiles counts) (loadLeaderboardRows profiles counts) :=
  ⟨List.sorted_insertionSort leaderboardRel (loadLeaderboardRows profiles counts),
   List.perm_insertionSort leaderboardRel (loadLeaderboardRows profiles counts)⟩

/-- Claim C10: a delta applied to an absent key always materializes a row
holding `GREATEST(0, delta)` in each field; an entirely nonpositive delta —
such as a retraction arriving before its matching creation — creates the
all-zero row for that key rather than leaving the key absent (and a zero
delta does so too, being nonpositive). -/
theorem first_touch_materializes_row (L : Ledger) (k : LedgerKey) (d : Delta)
    (h : L k = none) :
    upsert_monthly_points L k d k = some (insertRow d) ∧
    (d.reporter_points_delta ≤ 0 ∧ d.resolver_points_delta ≤ 0 ∧
        d.report_count_delta ≤ 0 ∧ d.resolved_count_delta ≤ 0 →
      upsert_monthly_points L k d k = some zeroEntry) := by
  have h1 : upsert_monthly_points L k d k = some (insertRow d) := by
    unfold upsert_monthly_points
    simp [h]
  refine ⟨h1, fun hd => ?_⟩
  rw [h1]
  obtain ⟨h2, h3, h4, h5⟩ := hd
  unfold insertRow zeroEntry
  rw [greatest_zero_of_nonpos h2, greatest_zero_of_nonpos h3,
    greatest_zero_of_nonpos h4, greatest_zero_of_nonpos h5]
  simp

/-- witness for C10: an all-negative first-touch delta creates the stored
all-zero row. -/
theorem first_touch_materializes_row_witness :
    upsert_monthly_points emptyLedger (1, 2026, 3) ⟨-3, 0, -1, 0⟩ (1, 2026, 3) =
      some zeroEntry :=
  (first_touch_materializes_row emptyLedger (1, 2026, 3) ⟨-3, 0, -1, 0⟩ rfl).2 (by decide)

end MSTS
